import Mathlib

/-
Verification of the structured-output POC (Trettin/structured-output-poc).

The development shallowly embeds the three core source files:
  - LLMChatClient.ts : the shared data model (Message, StructuredOutputConfig,
    StructuredOutputResponse, the Gemini dialect type set GeminiSchemaType);
  - GeminiClient.ts  : the recursive schema translator jsonSchemaToGeminiSchema
    and GeminiClient.chatWithStructuredOutput;
  - ChatGPTClient.ts : ChatGPTClient.chatWithStructuredOutput.

The single network round trip each adapter performs is modelled by passing the
backend as an explicit function from the built request payload to the provider
result; everything the adapters do before and after that call is pure and is
embedded directly.
-/

/-- Role of a chat message: the source union type
`'system' | 'user' | 'assistant'` (field `Message.role` in LLMChatClient.ts). -/
inductive Role where
  | system
  | user
  | assistant
deriving DecidableEq

/-- The uppercased role string, as produced by `msg.role.toUpperCase()` in
GeminiClient.chatWithStructuredOutput. -/
def roleUpper : Role → String
  | .system => "SYSTEM"
  | .user => "USER"
  | .assistant => "ASSISTANT"

/-- A chat message (interface `Message` in LLMChatClient.ts). -/
structure Message where
  role : Role
  content : String
deriving DecidableEq

/-- A canonical JSON-Schema-like node, the input of the translator.

The spec's data model (§3) has six node kinds: string, number (with the
number/integer subtype carried as a kind tag), boolean, array, object and
union.  The source dispatches dynamically on the node's `type` tag and on
the presence of `properties`/`items`:
  - `stringNode`, `numberNode isInteger`, `booleanNode` are the scalar nodes
    with tags "string", "number"/"integer" and "boolean";
  - `arrayNode items` is a node with tag "array" and an `items` child;
  - `objectNode props required` is a node with tag "object", a `properties`
    map (an insertion-ordered string-keyed map, embedded as a list of pairs)
    and an optional `required` list;
  - `unionNode alts` is an `anyOf` node, which carries no `type` tag at all
    (so the source reads `jsonSchema.type` as `undefined` on it);
  - `otherNode tag` is a node carrying an arbitrary `type` tag and none of
    the recognized child fields (no `properties`, no `items`); it covers the
    unrecognized-kind inputs as well as degenerate "object"/"array" tags
    whose required child field is absent (both fall through to the throw in
    the source). -/
inductive SchemaNode where
  | stringNode
  | numberNode (isInteger : Bool)
  | booleanNode
  | arrayNode (items : SchemaNode)
  | objectNode (props : List (String × SchemaNode)) (required : Option (List String))
  | unionNode (alts : List SchemaNode)
  | otherNode (tag : String)

/-- A node of the Gemini target dialect.  The constructors are the six
members of the `SchemaType` enum of the Google SDK, which coincide with the
repository's own `GeminiSchemaType` union in LLMChatClient.ts
(`'string' | 'number' | 'integer' | 'boolean' | 'array' | 'object'`).
Object nodes carry the translated `properties` and the `required` list the
translator emits; array nodes carry the translated `items`. -/
inductive GeminiSchema where
  | string
  | number
  | integer
  | boolean
  | array (items : GeminiSchema)
  | object (properties : List (String × GeminiSchema)) (required : List String)

/-- The errors the two adapters and the translator can raise.  Each
constructor corresponds to one `throw` site of the source, carrying exactly
the values the source interpolates into the thrown message:
  - `unsupportedSchemaType tag` : GeminiClient.ts line 53,
    `Unsupported JSON Schema type: <tag>`;
  - `noResponse` : ChatGPTClient.ts line 50, `No response from OpenAI`;
  - `refused reason` : ChatGPTClient.ts line 55,
    `OpenAI refused to respond: <reason>`;
  - `noContent` : ChatGPTClient.ts line 61, `No content in OpenAI response`;
  - `jsonParseExn` : the engine exception thrown by the bare
    `JSON.parse(message.content)` call at ChatGPTClient.ts line 64, which the
    adapter does not catch; its message is engine-specific and is not a
    message built by the repository, so the constructor carries no payload;
  - `geminiParseFailure raw` : GeminiClient.ts line 84,
    `Failed to parse Gemini JSON response: <raw>`. -/
inductive AdapterError where
  | unsupportedSchemaType (tag : String)
  | noResponse
  | refused (reason : String)
  | noContent
  | jsonParseExn
  | geminiParseFailure (raw : String)
deriving DecidableEq

/-- The message string of the `Error` object each error surfaces with, when
that message is built by the repository.  `jsonParseExn` is the uncaught
engine exception, whose message the repository does not control. -/
def errorMessage : AdapterError → Option String
  | .unsupportedSchemaType tag => some ("Unsupported JSON Schema type: " ++ tag)
  | .noResponse => some "No response from OpenAI"
  | .refused reason => some ("OpenAI refused to respond: " ++ reason)
  | .noContent => some "No content in OpenAI response"
  | .jsonParseExn => none
  | .geminiParseFailure raw => some ("Failed to parse Gemini JSON response: " ++ raw)

/-- Whether an error is one of the two empty-payload errors of the spec's
EmptyResponseError kind (the `No response from OpenAI` and
`No content in OpenAI response` throw sites). -/
def isEmptyResponseError : AdapterError → Bool
  | .noResponse => true
  | .noContent => true
  | _ => false

/-- Whether an error is the spec's ContentRefusedError kind (the
`OpenAI refused to respond` throw site). -/
def isRefusalError : AdapterError → Bool
  | .refused _ => true
  | _ => false

mutual

/-- The translator `GeminiClient.jsonSchemaToGeminiSchema` (GeminiClient.ts
lines 27-54).  The source walks its dynamic conditional chain in order:
object-with-properties, array-with-items, string, number-or-integer,
boolean, then throws `Unsupported JSON Schema type: <type>`.  A thrown
exception is embedded as an `Except.error`; nothing is returned in that
case, mirroring the abrupt termination of the source call. -/
def jsonSchemaToGeminiSchema : SchemaNode → Except AdapterError GeminiSchema
  | .stringNode => .ok .string
  | .numberNode _ => .ok .number
  | .booleanNode => .ok .boolean
  | .arrayNode items =>
      match jsonSchemaToGeminiSchema items with
      | .error e => .error e
      | .ok g => .ok (.array g)
  | .objectNode props required =>
      match geminiSchemaProps props with
      | .error e => .error e
      | .ok gs => .ok (.object gs (required.getD []))
  | .unionNode _ => .error (.unsupportedSchemaType "undefined")
  | .otherNode t =>
      if t = "string" then .ok .string
      else if t = "number" ∨ t = "integer" then .ok .number
      else if t = "boolean" then .ok .boolean
      else .error (.unsupportedSchemaType t)

/-- The `for (const [key, value] of Object.entries(jsonSchema.properties))`
loop of the translator: each property value is translated recursively, in
insertion order; the first thrown exception aborts the whole walk. -/
def geminiSchemaProps :
    List (String × SchemaNode) → Except AdapterError (List (String × GeminiSchema))
  | [] => .ok []
  | (k, v) :: rest =>
      match jsonSchemaToGeminiSchema v with
      | .error e => .error e
      | .ok g =>
          match geminiSchemaProps rest with
          | .error e => .error e
          | .ok gs => .ok ((k, g) :: gs)

end

/-- The type tags the translator's conditional chain recognizes. -/
def recognizedTypeTags : List String :=
  ["object", "array", "string", "number", "integer", "boolean"]

/-- The members of the repository's `GeminiSchemaType` union
(LLMChatClient.ts lines 131-137), i.e. the type set of the Gemini target
dialect. -/
def geminiSchemaTypeTags : List String :=
  ["string", "number", "integer", "boolean", "array", "object"]

mutual

/-- Trees built from the five node kinds the translator supports: string,
number/integer, boolean, array and object (no union nodes, no unrecognized
tags). -/
def supportedTree : SchemaNode → Bool
  | .stringNode => true
  | .numberNode _ => true
  | .booleanNode => true
  | .arrayNode items => supportedTree items
  | .objectNode props _ => supportedProps props
  | .unionNode _ => false
  | .otherNode _ => false

/-- Pointwise `supportedTree` over a property list. -/
def supportedProps : List (String × SchemaNode) → Bool
  | [] => true
  | (_, v) :: rest => supportedTree v && supportedProps rest

end

/-- The observable shape of a schema tree: the kind tag at the leaves, the
array nesting, and the insertion-ordered property names of every object
level. -/
inductive Shape where
  | leaf (kind : String)
  | arr (items : Shape)
  | obj (props : List (String × Shape))

mutual

/-- Shape of a canonical tree, with the declared kind tag at each leaf. -/
def canonShape : SchemaNode → Shape
  | .stringNode => .leaf "string"
  | .numberNode isInteger => .leaf (if isInteger then "integer" else "number")
  | .booleanNode => .leaf "boolean"
  | .arrayNode items => .arr (canonShape items)
  | .objectNode props _ => .obj (canonShapeProps props)
  | .unionNode _ => .leaf "union"
  | .otherNode t => .leaf t

/-- Pointwise `canonShape` over a property list. -/
def canonShapeProps : List (String × SchemaNode) → List (String × Shape)
  | [] => []
  | (k, v) :: rest => (k, canonShape v) :: canonShapeProps rest

end

mutual

/-- Shape of a target-dialect tree, with the emitted kind tag at each leaf. -/
def geminiShape : GeminiSchema → Shape
  | .string => .leaf "string"
  | .number => .leaf "number"
  | .integer => .leaf "integer"
  | .boolean => .leaf "boolean"
  | .array items => .arr (geminiShape items)
  | .object properties _ => .obj (geminiShapeProps properties)

/-- Pointwise `geminiShape` over a property list. -/
def geminiShapeProps : List (String × GeminiSchema) → List (String × Shape)
  | [] => []
  | (k, v) :: rest => (k, geminiShape v) :: geminiShapeProps rest

end

mutual

/-- Renames every `integer` leaf of a shape to `number`, leaving everything
else (names, nesting, other leaf kinds) unchanged: the numeric collapse the
translator performs. -/
def collapseShape : Shape → Shape
  | .leaf kind => .leaf (if kind = "integer" then "number" else kind)
  | .arr items => .arr (collapseShape items)
  | .obj props => .obj (collapseShapeProps props)

/-- Pointwise `collapseShape` over a property list. -/
def collapseShapeProps : List (String × Shape) → List (String × Shape)
  | [] => []
  | (k, v) :: rest => (k, collapseShape v) :: collapseShapeProps rest

end

mutual

/-- Nesting depth of a shape: scalar leaves have depth 0, arrays and objects
add one level above their children. -/
def shapeDepth : Shape → Nat
  | .leaf _ => 0
  | .arr items => shapeDepth items + 1
  | .obj props => shapeDepthProps props + 1

/-- Maximal depth over the values of a property list. -/
def shapeDepthProps : List (String × Shape) → Nat
  | [] => 0
  | (_, v) :: rest => max (shapeDepth v) (shapeDepthProps rest)

end

mutual

theorem shapeDepth_collapse (s : Shape) : shapeDepth (collapseShape s) = shapeDepth s := by
  cases s with
  | leaf kind => rfl
  | arr items => simp [collapseShape, shapeDepth, shapeDepth_collapse items]
  | obj props => simp [collapseShape, shapeDepth, shapeDepthProps_collapse props]

theorem shapeDepthProps_collapse (ps : List (String × Shape)) :
    shapeDepthProps (collapseShapeProps ps) = shapeDepthProps ps := by
  match ps with
  | [] => rfl
  | (k, v) :: rest =>
      simp [collapseShapeProps, shapeDepthProps, shapeDepth_collapse v,
        shapeDepthProps_collapse rest]

end

mutual

theorem translator_shape (s : SchemaNode) (h : supportedTree s = true) :
    ∃ g, jsonSchemaToGeminiSchema s = .ok g ∧ geminiShape g = collapseShape (canonShape s) := by
  cases s with
  | stringNode => exact ⟨.string, rfl, rfl⟩
  | numberNode isInteger => exact ⟨.number, rfl, by cases isInteger <;> rfl⟩
  | booleanNode => exact ⟨.boolean, rfl, rfl⟩
  | arrayNode items =>
      obtain ⟨g, hg, hsh⟩ := translator_shape items (by simpa [supportedTree] using h)
      exact ⟨.array g, by simp [jsonSchemaToGeminiSchema, hg],
        by simp [geminiShape, canonShape, collapseShape, hsh]⟩
  | objectNode props required =>
      obtain ⟨gs, hgs, hsh⟩ := translatorProps_shape props (by simpa [supportedTree] using h)
      exact ⟨.object gs (required.getD []), by simp [jsonSchemaToGeminiSchema, hgs],
        by simp [geminiShape, canonShape, collapseShape, hsh]⟩
  | unionNode alts => simp [supportedTree] at h
  | otherNode t => simp [supportedTree] at h

theorem translatorProps_shape (ps : List (String × SchemaNode)) (h : supportedProps ps = true) :
    ∃ gs, geminiSchemaProps ps = .ok gs ∧
      geminiShapeProps gs = collapseShapeProps (canonShapeProps ps) := by
  match ps with
  | [] => exact ⟨[], rfl, rfl⟩
  | (k, v) :: rest =>
      have hv : supportedTree v = true := by
        simp [supportedProps] at h; exact h.1
      have hrest : supportedProps rest = true := by
        simp [supportedProps] at h; exact h.2
      obtain ⟨g, hg, hshg⟩ := translator_shape v hv
      obtain ⟨gs, hgs, hshgs⟩ := translatorProps_shape rest hrest
      exact ⟨(k, g) :: gs, by simp [geminiSchemaProps, hg, hgs],
        by simp [geminiShapeProps, canonShapeProps, collapseShapeProps, hshg, hshgs]⟩

end

mutual

theorem translator_error_tag (s : SchemaNode) (e : AdapterError)
    (h : jsonSchemaToGeminiSchema s = .error e) : ∃ t, e = .unsupportedSchemaType t := by
  cases s with
  | stringNode => simp [jsonSchemaToGeminiSchema] at h
  | numberNode isInteger => simp [jsonSchemaToGeminiSchema] at h
  | booleanNode => simp [jsonSchemaToGeminiSchema] at h
  | arrayNode items =>
      cases hi : jsonSchemaToGeminiSchema items with
      | error e' =>
          simp [jsonSchemaToGeminiSchema, hi] at h
          exact h ▸ translator_error_tag items e' hi
      | ok g => simp [jsonSchemaToGeminiSchema, hi] at h
  | objectNode props required =>
      cases hp : geminiSchemaProps props with
      | error e' =>
          simp [jsonSchemaToGeminiSchema, hp] at h
          exact h ▸ translatorProps_error_tag props e' hp
      | ok gs => simp [jsonSchemaToGeminiSchema, hp] at h
  | unionNode alts =>
      simp [jsonSchemaToGeminiSchema] at h
      exact ⟨"undefined", h.symm⟩
  | otherNode t =>
      simp only [jsonSchemaToGeminiSchema] at h
      split at h
      · simp at h
      · split at h
        · simp at h
        · split at h
          · simp at h
          · exact ⟨t, by simpa using h.symm⟩

theorem translatorProps_error_tag (ps : List (String × SchemaNode)) (e : AdapterError)
    (h : geminiSchemaProps ps = .error e) : ∃ t, e = .unsupportedSchemaType t := by
  match ps with
  | [] => simp [geminiSchemaProps] at h
  | (k, v) :: rest =>
      cases hv : jsonSchemaToGeminiSchema v with
      | error e' =>
          simp [geminiSchemaProps, hv] at h
          exact h ▸ translator_error_tag v e' hv
      | ok g =>
          cases hrest : geminiSchemaProps rest with
          | error e' =>
              simp [geminiSchemaProps, hv, hrest] at h
              exact h ▸ translatorProps_error_tag rest e' hrest
          | ok gs => simp [geminiSchemaProps, hv, hrest] at h

end

/-- A JSON value as produced by a strict JSON decode.  A numeral is kept as
its decimal mantissa and power-of-ten exponent (the value is
`mantissa * 10 ^ exp10`), which represents every JSON numeral exactly; the
claims only ever compare small integer values. -/
inductive Json where
  | null
  | bool (b : Bool)
  | num (mantissa : Int) (exp10 : Int)
  | str (s : String)
  | arr (elems : List Json)
  | obj (fields : List (String × Json))

/-- JSON insignificant whitespace. -/
def isJsonWs (c : Char) : Bool :=
  c = ' ' || c = '\t' || c = '\n' || c = '\r'

/-- Drops leading JSON whitespace. -/
def skipWs : List Char → List Char
  | [] => []
  | c :: cs => if isJsonWs c then skipWs cs else c :: cs

/-- Splits the longest leading run of decimal digits off a character list. -/
def takeDigits : List Char → List Char × List Char
  | [] => ([], [])
  | c :: cs =>
      if c.isDigit then
        let (ds, rest) := takeDigits cs
        (c :: ds, rest)
      else ([], c :: cs)

/-- Decimal value of a digit run. -/
def digitsToNat (ds : List Char) : Nat :=
  ds.foldl (fun n c => 10 * n + (c.toNat - 48)) 0

/-- Value of a hexadecimal digit, if the character is one. -/
def hexDigitVal (c : Char) : Option Nat :=
  if c.isDigit then some (c.toNat - 48)
  else if 'a' ≤ c ∧ c ≤ 'f' then some (c.toNat - 87)
  else if 'A' ≤ c ∧ c ≤ 'F' then some (c.toNat - 55)
  else none

/-- Decodes the body of a JSON string literal, positioned just after the
opening quote; returns the decoded characters and the input after the
closing quote.  Handles the short escapes and the `\uXXXX` escape; rejects
raw control characters, as strict JSON does. -/
def parseStrChars : Nat → List Char → Option (List Char × List Char)
  | 0, _ => none
  | _ + 1, [] => none
  | fuel + 1, c :: cs =>
      if c = '"' then some ([], cs)
      else if c = '\\' then
        match cs with
        | [] => none
        | e :: cs2 =>
            if e = '"' ∨ e = '\\' ∨ e = '/' then
              (parseStrChars fuel cs2).map (fun p => (e :: p.1, p.2))
            else if e = 'b' then
              (parseStrChars fuel cs2).map (fun p => (Char.ofNat 8 :: p.1, p.2))
            else if e = 'f' then
              (parseStrChars fuel cs2).map (fun p => (Char.ofNat 12 :: p.1, p.2))
            else if e = 'n' then
              (parseStrChars fuel cs2).map (fun p => ('\n' :: p.1, p.2))
            else if e = 'r' then
              (parseStrChars fuel cs2).map (fun p => ('\r' :: p.1, p.2))
            else if e = 't' then
              (parseStrChars fuel cs2).map (fun p => ('\t' :: p.1, p.2))
            else if e = 'u' then
              match cs2 with
              | h1 :: h2 :: h3 :: h4 :: cs3 =>
                  match hexDigitVal h1, hexDigitVal h2, hexDigitVal h3, hexDigitVal h4 with
                  | some a, some b, some c3, some d =>
                      (parseStrChars fuel cs3).map
                        (fun p => (Char.ofNat (4096 * a + 256 * b + 16 * c3 + d) :: p.1, p.2))
                  | _, _, _, _ => none
              | _ => none
            else none
      else if c.toNat < 32 then none
      else (parseStrChars fuel cs).map (fun p => (c :: p.1, p.2))

/-- Decodes a JSON numeral (sign, integer part with the no-leading-zero
rule, optional fraction, optional exponent). -/
def parseNumber (cs : List Char) : Option (Json × List Char) :=
  let signed : Bool × List Char :=
    match cs with
    | c :: rest => if c = '-' then (true, rest) else (false, cs)
    | [] => (false, [])
  match signed with
  | (neg, cs1) =>
    match cs1 with
    | [] => none
    | c :: rest =>
        if ¬ c.isDigit then none
        else
          let ipair : List Char × List Char :=
            if c = '0' then ([c], rest) else takeDigits cs1
          match ipair with
          | (ipart, rest1) =>
            if (rest1.head?.map Char.isDigit).getD false then none
            else
              let fpair : Option (List Char) × List Char :=
                match rest1 with
                | '.' :: r2 =>
                    match takeDigits r2 with
                    | ([], _) => (none, rest1)
                    | (fd, r3) => (some fd, r3)
                | _ => (none, rest1)
              match fpair with
              | (none, _) =>
                match rest1 with
                | '.' :: _ => none
                | _ =>
                  let epair : Option Int × List Char :=
                    match rest1 with
                    | e :: r4 =>
                        if e = 'e' ∨ e = 'E' then
                          match r4 with
                          | '+' :: r5 =>
                              match takeDigits r5 with
                              | ([], _) => (none, rest1)
                              | (ed, r6) => (some (Int.ofNat (digitsToNat ed)), r6)
                          | '-' :: r5 =>
                              match takeDigits r5 with
                              | ([], _) => (none, rest1)
                              | (ed, r6) => (some (-(Int.ofNat (digitsToNat ed))), r6)
                          | _ =>
                              match takeDigits r4 with
                              | ([], _) => (none, rest1)
                              | (ed, r6) => (some (Int.ofNat (digitsToNat ed)), r6)
                        else (none, rest1)
                    | [] => (none, rest1)
                  match epair with
                  | (eval?, rest2) =>
                    match rest1, eval? with
                    | e :: _, none =>
                        if e = 'e' ∨ e = 'E' then none
                        else
                          let m : Int := Int.ofNat (digitsToNat ipart)
                          some (.num (if neg then -m else m) 0, rest1)
                    | [], none =>
                        let m : Int := Int.ofNat (digitsToNat ipart)
                        some (.num (if neg then -m else m) 0, rest1)
                    | _, some ev =>
                        let m : Int := Int.ofNat (digitsToNat ipart)
                        some (.num (if neg then -m else m) ev, rest2)
              | (some fd, rest2) =>
                  let m : Int := Int.ofNat (digitsToNat (ipart ++ fd))
                  let fexp : Int := -(Int.ofNat fd.length)
                  match rest2 with
                  | e :: r4 =>
                      if e = 'e' ∨ e = 'E' then
                        match r4 with
                        | '+' :: r5 =>
                            match takeDigits r5 with
                            | ([], _) => none
                            | (ed, r6) =>
                                some (.num (if neg then -m else m)
                                  (fexp + Int.ofNat (digitsToNat ed)), r6)
                        | '-' :: r5 =>
                            match takeDigits r5 with
                            | ([], _) => none
                            | (ed, r6) =>
                                some (.num (if neg then -m else m)
                                  (fexp - Int.ofNat (digitsToNat ed)), r6)
                        | _ =>
                            match takeDigits r4 with
                            | ([], _) => none
                            | (ed, r6) =>
                                some (.num (if neg then -m else m)
                                  (fexp + Int.ofNat (digitsToNat ed)), r6)
                      else some (.num (if neg then -m else m) fexp, rest2)
                  | [] => some (.num (if neg then -m else m) fexp, rest2)

mutual

/-- Decodes one JSON value (leading whitespace allowed), returning the value
and the unconsumed input.  The fuel decreases on every nested decode; the
top-level entry point supplies more fuel than any input can consume. -/
def parseJsonValue : Nat → List Char → Option (Json × List Char)
  | 0, _ => none
  | fuel + 1, cs =>
      match skipWs cs with
      | 'n' :: 'u' :: 'l' :: 'l' :: r => some (.null, r)
      | 't' :: 'r' :: 'u' :: 'e' :: r => some (.bool true, r)
      | 'f' :: 'a' :: 'l' :: 's' :: 'e' :: r => some (.bool false, r)
      | c :: r =>
          if c = '"' then
            (parseStrChars (r.length + 1) r).map (fun p => (.str (String.mk p.1), p.2))
          else if c = '[' then
            match skipWs r with
            | ']' :: r2 => some (.arr [], r2)
            | r2 =>
                match parseJsonElems fuel r2 with
                | some (vs, r3) => some (.arr vs, r3)
                | none => none
          else if c = Char.ofNat 123 then
            match skipWs r with
            | c2 :: r2 =>
                if c2 = Char.ofNat 125 then some (.obj [], r2)
                else
                  match parseJsonFields fuel (c2 :: r2) with
                  | some (fs, r3) => some (.obj fs, r3)
                  | none => none
            | [] => none
          else if c = '-' ∨ c.isDigit then parseNumber (c :: r)
          else none
      | [] => none

/-- Decodes the comma-separated elements of a non-empty JSON array,
positioned at the first element; consumes the closing bracket. -/
def parseJsonElems : Nat → List Char → Option (List Json × List Char)
  | 0, _ => none
  | fuel + 1, cs =>
      match parseJsonValue fuel cs with
      | none => none
      | some (v, r) =>
          match skipWs r with
          | ',' :: r2 =>
              match parseJsonElems fuel r2 with
              | some (vs, r3) => some (v :: vs, r3)
              | none => none
          | ']' :: r2 => some ([v], r2)
          | _ => none

/-- Decodes the comma-separated members of a non-empty JSON object,
positioned at the first member's key; consumes the closing brace. -/
def parseJsonFields : Nat → List Char → Option (List (String × Json) × List Char)
  | 0, _ => none
  | fuel + 1, cs =>
      match skipWs cs with
      | c :: r =>
          if c = '"' then
            match parseStrChars (r.length + 1) r with
            | none => none
            | some (key, r2) =>
                match skipWs r2 with
                | ':' :: r3 =>
                    match parseJsonValue fuel r3 with
                    | none => none
                    | some (v, r4) =>
                        match skipWs r4 with
                        | ',' :: r5 =>
                            match parseJsonFields fuel r5 with
                            | some (fs, r6) => some ((String.mk key, v) :: fs, r6)
                            | none => none
                        | c2 :: r5 =>
                            if c2 = Char.ofNat 125 then some ([(String.mk key, v)], r5)
                            else none
                        | [] => none
                | _ => none
          else none
      | [] => none

end

/-- A strict JSON decode of a whole string: one value, surrounded only by
whitespace.  This models the builtin `JSON.parse` both adapters call:
`some` is a successful decode, `none` is the thrown decode exception. -/
def jsonParse (s : String) : Option Json :=
  match parseJsonValue (s.length + 1) s.data with
  | some (v, rest) => if skipWs rest = [] then some v else none
  | none => none

/-- The caller-supplied request configuration (interface
`StructuredOutputConfig` in LLMChatClient.ts): the canonical schema, a
schema name, and an optional schema description. -/
structure StructuredOutputConfig where
  schema : SchemaNode
  schemaName : String
  schemaDescription : Option String

/-- The success envelope (interface `StructuredOutputResponse`): the decoded
data and the full raw backend payload. -/
structure StructuredOutputResponse (R : Type) where
  data : Json
  rawResponse : R

/-- Truthiness of a JS string-or-nullish value: `null`/`undefined` and the
empty string are falsy, every other string is truthy. -/
def truthyStr : Option String → Bool
  | none => false
  | some s => s != ""

/-- The message of an OpenAI chat-completion choice, with the two fields
ChatGPTClient reads: `refusal` and `content` (each a string or nullish). -/
structure OpenAIMessage where
  refusal : Option String
  content : Option String

/-- One element of `completion.choices`. -/
structure OpenAIChoice where
  message : OpenAIMessage

/-- The OpenAI backend payload (`completion`). -/
structure ChatCompletion where
  choices : List OpenAIChoice

/-- The request payload ChatGPTClient.chatWithStructuredOutput builds for
`chat.completions.create` (ChatGPTClient.ts lines 34-46): the model name,
the mapped message list, and the `response_format` block
`type: 'json_schema'`, `json_schema: (name, schema, strict: true)`.
The canonical schema is passed through to the wire untranslated. -/
structure OpenAIRequest where
  model : String
  messages : List Message
  responseFormatType : String
  jsonSchemaName : String
  jsonSchemaBody : SchemaNode
  strict : Bool

/-- Builds the OpenAI request: `messages.map((msg) => (role, content))`
followed by the `response_format` block.  `config.schemaDescription` is
never read. -/
def buildOpenAIRequest (model : String) (messages : List Message)
    (config : StructuredOutputConfig) : OpenAIRequest :=
  ⟨model, messages.map (fun m => ⟨m.role, m.content⟩), "json_schema",
    config.schemaName, config.schema, true⟩

/-- The response handling of ChatGPTClient.chatWithStructuredOutput
(ChatGPTClient.ts lines 48-69): take `choices[0]?.message`; throw
`No response from OpenAI` when it is missing; throw
`OpenAI refused to respond: <refusal>` when `message.refusal` is truthy;
throw `No content in OpenAI response` when `message.content` is falsy;
otherwise decode the content with the bare `JSON.parse` (whose exception
propagates uncaught) and return the envelope. -/
def processCompletion (completion : ChatCompletion) :
    Except AdapterError (StructuredOutputResponse ChatCompletion) :=
  match completion.choices.head? with
  | none => .error .noResponse
  | some choice =>
      if truthyStr choice.message.refusal then
        .error (.refused (choice.message.refusal.getD ""))
      else if truthyStr choice.message.content then
        match jsonParse (choice.message.content.getD "") with
        | none => .error .jsonParseExn
        | some v => .ok ⟨v, completion⟩
      else .error .noContent

/-- `ChatGPTClient.chatWithStructuredOutput`: build the request, perform the
single backend call, process the completion. -/
def chatGPTChatWithStructuredOutput (model : String) (messages : List Message)
    (config : StructuredOutputConfig) (backend : OpenAIRequest → ChatCompletion) :
    Except AdapterError (StructuredOutputResponse ChatCompletion) :=
  processCompletion (backend (buildOpenAIRequest model messages config))

/-- The Gemini backend response as GeminiClient consumes it:
`result.response.text()` is the textual payload.  `blockReason` stands for
the SDK's refusal/blocking signal (`promptFeedback.blockReason`), which is
part of the payload but is never read by GeminiClient. -/
structure GeminiResponse where
  text : String
  blockReason : Option String

/-- The Gemini backend payload (`GenerateContentResult`). -/
structure GenerateContentResult where
  response : GeminiResponse

/-- The request payload GeminiClient.chatWithStructuredOutput builds
(GeminiClient.ts lines 60-75): the model name, the generation config
(`responseMimeType: 'application/json'` and the translated
`responseSchema`), and the single flattened prompt string. -/
structure GeminiRequest where
  model : String
  responseMimeType : String
  responseSchema : GeminiSchema
  prompt : String

/-- The prompt flattening of GeminiClient.chatWithStructuredOutput: every
message becomes `ROLE: content` with the role uppercased, and the pieces
are joined with a blank line. -/
def geminiPrompt (messages : List Message) : String :=
  String.intercalate "\n\n" (messages.map (fun m => roleUpper m.role ++ ": " ++ m.content))

/-- Builds the Gemini request.  The schema translation runs first and its
exception aborts the call before any backend interaction;
`config.schemaName` and `config.schemaDescription` are never read. -/
def buildGeminiRequest (modelName : String) (messages : List Message)
    (config : StructuredOutputConfig) : Except AdapterError GeminiRequest :=
  match jsonSchemaToGeminiSchema config.schema with
  | .error e => .error e
  | .ok gs => .ok ⟨modelName, "application/json", gs, geminiPrompt messages⟩

/-- The response handling of GeminiClient.chatWithStructuredOutput
(GeminiClient.ts lines 77-90): read `response.text()`, decode it with
`JSON.parse`, and on failure throw
`Failed to parse Gemini JSON response: <text>`; on success return the
envelope.  There is no refusal check and no empty-payload check. -/
def processGeminiResult (result : GenerateContentResult) :
    Except AdapterError (StructuredOutputResponse GenerateContentResult) :=
  match jsonParse result.response.text with
  | none => .error (.geminiParseFailure result.response.text)
  | some v => .ok ⟨v, result⟩

/-- `GeminiClient.chatWithStructuredOutput`: build the request (running the
schema translator), perform the single backend call, process the result. -/
def geminiChatWithStructuredOutput (modelName : String) (messages : List Message)
    (config : StructuredOutputConfig) (backend : GeminiRequest → GenerateContentResult) :
    Except AdapterError (StructuredOutputResponse GenerateContentResult) :=
  match buildGeminiRequest modelName messages config with
  | .error e => .error e
  | .ok req => processGeminiResult (backend req)

/-- The pointwise statement that a target property list is exactly the
source property list with every value translated, key for key, in the same
insertion order. -/
def propsTranslateTo :
    List (String × SchemaNode) → List (String × GeminiSchema) → Prop
  | [], [] => True
  | (k, v) :: ps, (k2, g) :: gs =>
      k2 = k ∧ jsonSchemaToGeminiSchema v = .ok g ∧ propsTranslateTo ps gs
  | _, _ => False

theorem geminiSchemaProps_of_translateTo (ps : List (String × SchemaNode))
    (gs : List (String × GeminiSchema)) (h : propsTranslateTo ps gs) :
    geminiSchemaProps ps = .ok gs := by
  induction ps generalizing gs with
  | nil =>
      cases gs with
      | nil => rfl
      | cons hd tl => simp [propsTranslateTo] at h
  | cons hd tl ih =>
      match hd, gs with
      | (k, v), [] => simp [propsTranslateTo] at h
      | (k, v), (k2, g) :: gs2 =>
          obtain ⟨hk, hv, hrest⟩ := h
          subst hk
          simp [geminiSchemaProps, hv, ih gs2 hrest]

theorem translateTo_keys (ps : List (String × SchemaNode))
    (gs : List (String × GeminiSchema)) (h : propsTranslateTo ps gs) :
    gs.map Prod.fst = ps.map Prod.fst := by
  induction ps generalizing gs with
  | nil =>
      cases gs with
      | nil => rfl
      | cons hd tl => simp [propsTranslateTo] at h
  | cons hd tl ih =>
      match hd, gs with
      | (k, v), [] => simp [propsTranslateTo] at h
      | (k, v), (k2, g) :: gs2 =>
          obtain ⟨hk, hv, hrest⟩ := h
          subst hk
          simp [ih gs2 hrest]

/-- A small supported canonical tree used to instantiate the universally
quantified shape-preservation theorem. -/
def sampleTree : SchemaNode :=
  .objectNode
    [("name", .stringNode), ("age", .numberNode true), ("tags", .arrayNode .stringNode)]
    (some ["name", "age"])

/-- C1, counterexample.  The claim quantifies over trees built from all six
node kinds, union included, and asserts that the translator always produces
a tree preserving the declared item type of every array node.  Both parts
fail: a union (`anyOf`) node carries no `type` tag, so the translator
throws `Unsupported JSON Schema type: undefined` and produces no tree at
all; and an array of integers is translated to an array whose declared item
type is `number`, not the source's declared item type `integer`. -/
theorem c1_counterexample :
    jsonSchemaToGeminiSchema (.unionNode [.stringNode])
      = .error (.unsupportedSchemaType "undefined") ∧
    jsonSchemaToGeminiSchema (.arrayNode (.numberNode true)) = .ok (.array .number) ∧
    canonShape (.numberNode true) = .leaf "integer" ∧
    geminiShape GeminiSchema.number = .leaf "number" ∧
    Shape.leaf "integer" ≠ Shape.leaf "number" :=
  ⟨rfl, rfl, rfl, rfl, by simp⟩

/-- C1 (amended): for every canonical tree built from the five translatable
node kinds (string, number/integer, boolean, array, object — union nodes
are rejected with an error), the translator succeeds and its output has
exactly the source's shape up to the integer-to-number leaf collapse: the
same insertion-ordered object property names at every level, the same
declared item kind of every array node up to that collapse, and the same
nesting depth. -/
theorem c1_translator_shape_preservation (s : SchemaNode) (h : supportedTree s = true) :
    ∃ g, jsonSchemaToGeminiSchema s = .ok g ∧
      geminiShape g = collapseShape (canonShape s) ∧
      shapeDepth (geminiShape g) = shapeDepth (canonShape s) := by
  obtain ⟨g, hok, hsh⟩ := translator_shape s h
  exact ⟨g, hok, hsh, by rw [hsh, shapeDepth_collapse]⟩

/-- C1, witness: the amended theorem evaluated on a concrete object tree
with a string, an integer and an array property. -/
theorem c1_translator_shape_witness :
    supportedTree sampleTree = true ∧
    (∃ g, jsonSchemaToGeminiSchema sampleTree = .ok g ∧
      geminiShape g = collapseShape (canonShape sampleTree) ∧
      shapeDepth (geminiShape g) = shapeDepth (canonShape sampleTree)) :=
  ⟨rfl, c1_translator_shape_preservation sampleTree rfl⟩

/-- C2, counterexample.  The translator maps the integer node to the same
output as the number node — the `NUMBER` member of the target enum — even
though the target dialect's type set (`GeminiSchemaType`, LLMChatClient.ts
lines 131-137) contains `integer` as a member distinct from `number`, so
the numeric subtype distinction is not preserved. -/
theorem c2_counterexample :
    jsonSchemaToGeminiSchema (.numberNode true) = .ok .number ∧
    jsonSchemaToGeminiSchema (.numberNode false) = .ok .number ∧
    GeminiSchema.number ≠ GeminiSchema.integer ∧
    "integer" ∈ geminiSchemaTypeTags :=
  ⟨rfl, rfl, by simp, by simp [geminiSchemaTypeTags]⟩

/-- C2 (amended): the translator collapses both numeric subtypes to the
single numeric kind `NUMBER` of the target enum, although the Gemini
dialect's type set does encode `integer` as distinct from `number`. -/
theorem c2_numeric_collapse (isInteger : Bool) :
    jsonSchemaToGeminiSchema (.numberNode isInteger) = .ok .number ∧
    "integer" ∈ geminiSchemaTypeTags :=
  ⟨rfl, by simp [geminiSchemaTypeTags]⟩

/-- C3 (confirmed): a node whose kind tag is not one of the six tags the
translator's chain recognizes makes translation fail with the
unsupported-schema-type error carrying exactly the offending tag, both when
the node is the root and when it sits inside an object whose earlier
properties translate fine — the exception aborts the whole walk, so no
partial output tree is produced (the error outcome carries no tree). -/
theorem c3_unsupported_tag_rejection (t : String) (h : t ∉ recognizedTypeTags) :
    jsonSchemaToGeminiSchema (.otherNode t) = .error (.unsupportedSchemaType t) ∧
    jsonSchemaToGeminiSchema (.objectNode [("a", .stringNode), ("b", .otherNode t)] none)
      = .error (.unsupportedSchemaType t) ∧
    errorMessage (.unsupportedSchemaType t)
      = some ("Unsupported JSON Schema type: " ++ t) := by
  simp only [recognizedTypeTags, List.mem_cons, List.not_mem_nil, or_false, not_or] at h
  obtain ⟨-, -, h3, h4, h5, h6⟩ := h
  refine ⟨?_, ?_, rfl⟩
  · simp [jsonSchemaToGeminiSchema, h3, h4, h5, h6]
  · simp [jsonSchemaToGeminiSchema, geminiSchemaProps, h3, h4, h5, h6]

/-- C3, witness: the rejection theorem evaluated at the concrete
unrecognized tag `frobnicate`. -/
theorem c3_unsupported_tag_witness :
    "frobnicate" ∉ recognizedTypeTags ∧
    (jsonSchemaToGeminiSchema (.otherNode "frobnicate")
        = .error (.unsupportedSchemaType "frobnicate") ∧
      jsonSchemaToGeminiSchema
          (.objectNode [("a", .stringNode), ("b", .otherNode "frobnicate")] none)
        = .error (.unsupportedSchemaType "frobnicate") ∧
      errorMessage (.unsupportedSchemaType "frobnicate")
        = some ("Unsupported JSON Schema type: " ++ "frobnicate")) :=
  ⟨by decide, c3_unsupported_tag_rejection "frobnicate" (by decide)⟩

/-- C4 (confirmed): for an object node whose property values each translate
successfully, the translator emits a target object node carrying exactly
those translated values under the same keys in the same insertion order,
with the `required` list taken from the source and defaulting to the empty
list when the source omits it. -/
theorem c4_object_translation (ps : List (String × SchemaNode))
    (required : Option (List String)) (gs : List (String × GeminiSchema))
    (h : propsTranslateTo ps gs) :
    jsonSchemaToGeminiSchema (.objectNode ps required)
      = .ok (.object gs (required.getD [])) ∧
    gs.map Prod.fst = ps.map Prod.fst := by
  refine ⟨?_, translateTo_keys ps gs h⟩
  simp [jsonSchemaToGeminiSchema, geminiSchemaProps_of_translateTo ps gs h]

/-- C4, witness: the object-translation theorem evaluated on a concrete
two-property object with the `required` list omitted. -/
theorem c4_object_translation_witness :
    propsTranslateTo [("name", .stringNode), ("age", .numberNode true)]
      [("name", .string), ("age", .number)] ∧
    (jsonSchemaToGeminiSchema
        (.objectNode [("name", .stringNode), ("age", .numberNode true)] none)
      = .ok (.object [("name", .string), ("age", .number)] []) ∧
      [("name", GeminiSchema.string), ("age", GeminiSchema.number)].map Prod.fst
        = [("name", SchemaNode.stringNode), ("age", SchemaNode.numberNode true)].map Prod.fst) :=
  have hp : propsTranslateTo [("name", .stringNode), ("age", .numberNode true)]
      [("name", .string), ("age", .number)] := ⟨rfl, rfl, rfl, rfl, trivial⟩
  ⟨hp, c4_object_translation _ _ _ hp⟩

/-- A fixed sample configuration used to instantiate adapter theorems. -/
def sampleConfig : StructuredOutputConfig := ⟨.stringNode, "cv_extraction", none⟩

/-- A fixed sample message list used to instantiate adapter theorems. -/
def sampleMessages : List Message := [⟨.user, "Bob is 42"⟩]

/-- C5, counterexample.  On the backend text `not-json`, the ChatGPT
adapter fails, but with the uncaught engine exception of the bare
`JSON.parse(message.content)` call — not with an adapter-built parse error,
and with no payload built by the repository, so no error whose payload
includes the raw backend text verbatim. -/
theorem c5_counterexample :
    chatGPTChatWithStructuredOutput "gpt-4o-2024-08-06" sampleMessages sampleConfig
        (fun _ => ⟨[⟨⟨none, some "not-json"⟩⟩]⟩)
      = .error .jsonParseExn ∧
    errorMessage AdapterError.jsonParseExn = none :=
  ⟨rfl, rfl⟩

/-- C5 (amended): after exactly one strict decode attempt and with no
repair, retry or partial recovery, a non-JSON backend text makes the Gemini
adapter fail with its parse error whose message embeds the raw text
verbatim, while the ChatGPT adapter fails by letting the engine's
`JSON.parse` exception propagate, which carries no repository-built payload
with the raw text. -/
theorem c5_parse_failure_surfacing (modelO modelG : String) (messages : List Message)
    (config : StructuredOutputConfig) (gs : GeminiSchema) (text : String)
    (rest : List OpenAIChoice) (blockReason : Option String)
    (hparse : jsonParse text = none) (hne : text ≠ "")
    (hschema : jsonSchemaToGeminiSchema config.schema = .ok gs) :
    geminiChatWithStructuredOutput modelG messages config
        (fun _ => ⟨⟨text, blockReason⟩⟩)
      = .error (.geminiParseFailure text) ∧
    errorMessage (.geminiParseFailure text)
      = some ("Failed to parse Gemini JSON response: " ++ text) ∧
    chatGPTChatWithStructuredOutput modelO messages config
        (fun _ => ⟨⟨⟨none, some text⟩⟩ :: rest⟩)
      = .error .jsonParseExn := by
  refine ⟨?_, rfl, ?_⟩
  · simp [geminiChatWithStructuredOutput, buildGeminiRequest, hschema,
      processGeminiResult, hparse]
  · simp [chatGPTChatWithStructuredOutput, processCompletion, truthyStr,
      bne_iff_ne, hne, hparse]

/-- C5, witness: the amended theorem evaluated on the literal backend text
`not-json` for both adapters. -/
theorem c5_parse_failure_witness :
    jsonParse "not-json" = none ∧ "not-json" ≠ "" ∧
    jsonSchemaToGeminiSchema sampleConfig.schema = .ok .string ∧
    (geminiChatWithStructuredOutput "gemini-2.0-flash-exp" sampleMessages sampleConfig
        (fun _ => ⟨⟨"not-json", none⟩⟩)
      = .error (.geminiParseFailure "not-json") ∧
      errorMessage (.geminiParseFailure "not-json")
        = some ("Failed to parse Gemini JSON response: " ++ "not-json") ∧
      chatGPTChatWithStructuredOutput "gpt-4o-2024-08-06" sampleMessages sampleConfig
        (fun _ => ⟨[⟨⟨none, some "not-json"⟩⟩]⟩)
      = .error .jsonParseExn) :=
  ⟨rfl, by decide, rfl,
    c5_parse_failure_surfacing "gpt-4o-2024-08-06" "gemini-2.0-flash-exp" sampleMessages
      sampleConfig .string "not-json" [] none rfl (by decide) rfl⟩

/-- C6, counterexample.  GeminiClient has no refusal handling: given a
backend result flagged as refused with reason `policy violation` (carried
in the blocking signal the adapter never reads, with the refusal notice as
the textual payload), the call fails with the JSON parse error — hence JSON
decoding of the refusal was attempted — and not with any refusal error. -/
theorem c6_counterexample :
    geminiChatWithStructuredOutput "gemini-2.0-flash-exp" sampleMessages sampleConfig
        (fun _ => ⟨⟨"policy violation", some "policy violation"⟩⟩)
      = .error (.geminiParseFailure "policy violation") ∧
    isRefusalError (.geminiParseFailure "policy violation") = false :=
  ⟨rfl, rfl⟩

/-- C6 (amended): the ChatGPT adapter, on a first-choice message whose
`refusal` field holds a nonempty reason, fails with the refusal error
carrying exactly that reason and never decodes the content (the outcome is
the same for every content, decodable or not); the Gemini adapter, by
contrast, can never fail with a refusal error, whatever the backend
returns. -/
theorem c6_refusal_surfacing (modelO modelG : String) (messages : List Message)
    (config : StructuredOutputConfig) (reason : String) (content : Option String)
    (rest : List OpenAIChoice) (hr : reason ≠ "") :
    chatGPTChatWithStructuredOutput modelO messages config
        (fun _ => ⟨⟨⟨some reason, content⟩⟩ :: rest⟩)
      = .error (.refused reason) ∧
    errorMessage (.refused reason) = some ("OpenAI refused to respond: " ++ reason) ∧
    (∀ (result : GenerateContentResult) (r2 : String),
      geminiChatWithStructuredOutput modelG messages config (fun _ => result)
        ≠ .error (.refused r2)) := by
  refine ⟨?_, rfl, ?_⟩
  · simp [chatGPTChatWithStructuredOutput, processCompletion, truthyStr, bne_iff_ne, hr]
  · intro result r2 hcontra
    unfold geminiChatWithStructuredOutput at hcontra
    cases hb : buildGeminiRequest modelG messages config with
    | error e =>
        rw [hb] at hcontra
        unfold buildGeminiRequest at hb
        cases ht : jsonSchemaToGeminiSchema config.schema with
        | error e2 =>
            rw [ht] at hb
            injection hb with hb2
            subst hb2
            injection hcontra with hc
            obtain ⟨t, htag⟩ := translator_error_tag config.schema e2 ht
            rw [htag] at hc
            exact AdapterError.noConfusion hc
        | ok gs =>
            rw [ht] at hb
            exact Except.noConfusion hb
    | ok req =>
        rw [hb] at hcontra
        simp only [processGeminiResult] at hcontra
        split at hcontra
        · simp at hcontra
        · simp at hcontra

/-- C6, witness: the amended theorem evaluated at the reason
`policy violation`, an undecodable content on the ChatGPT side, and a
concrete Gemini backend result. -/
theorem c6_refusal_witness :
    "policy violation" ≠ "" ∧
    (chatGPTChatWithStructuredOutput "gpt-4o-2024-08-06" sampleMessages sampleConfig
        (fun _ => ⟨[⟨⟨some "policy violation", some "not-json"⟩⟩]⟩)
      = .error (.refused "policy violation") ∧
      errorMessage (.refused "policy violation")
        = some ("OpenAI refused to respond: " ++ "policy violation") ∧
      geminiChatWithStructuredOutput "gemini-2.0-flash-exp" sampleMessages sampleConfig
        (fun _ => ⟨⟨"\x7b\x7d", none⟩⟩)
      ≠ .error (.refused "policy violation")) :=
  have h := c6_refusal_surfacing "gpt-4o-2024-08-06" "gemini-2.0-flash-exp" sampleMessages
    sampleConfig "policy violation" (some "not-json") [] (by decide)
  ⟨by decide, h.1, h.2.1, h.2.2 ⟨⟨"\x7b\x7d", none⟩⟩ "policy violation"⟩

/-- C7, counterexample.  GeminiClient has no empty-payload check: on an
empty backend text the call fails inside JSON decoding with the parse
error, which is not one of the empty-payload errors. -/
theorem c7_counterexample :
    geminiChatWithStructuredOutput "gemini-2.0-flash-exp" sampleMessages sampleConfig
        (fun _ => ⟨⟨"", none⟩⟩)
      = .error (.geminiParseFailure "") ∧
    isEmptyResponseError (.geminiParseFailure "") = false :=
  ⟨rfl, rfl⟩

/-- C7 (amended): the ChatGPT adapter fails with its two empty-payload
errors — `No response from OpenAI` when the choice list is empty and
`No content in OpenAI response` when the first message's content is nullish
or the empty string; the Gemini adapter has no such check, and an empty
backend text falls through to JSON decoding and fails with the parse
error instead. -/
theorem c7_empty_payload_surfacing (modelO modelG : String) (messages : List Message)
    (config : StructuredOutputConfig) (gs : GeminiSchema) (rest : List OpenAIChoice)
    (hschema : jsonSchemaToGeminiSchema config.schema = .ok gs) :
    chatGPTChatWithStructuredOutput modelO messages config (fun _ => ⟨[]⟩)
      = .error .noResponse ∧
    chatGPTChatWithStructuredOutput modelO messages config
        (fun _ => ⟨⟨⟨none, none⟩⟩ :: rest⟩) = .error .noContent ∧
    chatGPTChatWithStructuredOutput modelO messages config
        (fun _ => ⟨⟨⟨none, some ""⟩⟩ :: rest⟩) = .error .noContent ∧
    isEmptyResponseError .noResponse = true ∧
    isEmptyResponseError .noContent = true ∧
    geminiChatWithStructuredOutput modelG messages config (fun _ => ⟨⟨"", none⟩⟩)
      = .error (.geminiParseFailure "") ∧
    isEmptyResponseError (.geminiParseFailure "") = false := by
  have h0 : jsonParse "" = none := rfl
  refine ⟨rfl, rfl, rfl, rfl, rfl, ?_, rfl⟩
  simp [geminiChatWithStructuredOutput, buildGeminiRequest, hschema,
    processGeminiResult, h0]

/-- C7, witness: the amended theorem evaluated on the sample configuration
and concrete backend payloads. -/
theorem c7_empty_payload_witness :
    jsonSchemaToGeminiSchema sampleConfig.schema = .ok .string ∧
    (chatGPTChatWithStructuredOutput "gpt-4o-2024-08-06" sampleMessages sampleConfig
        (fun _ => ⟨[]⟩) = .error .noResponse ∧
      chatGPTChatWithStructuredOutput "gpt-4o-2024-08-06" sampleMessages sampleConfig
        (fun _ => ⟨⟨⟨none, none⟩⟩ :: []⟩) = .error .noContent ∧
      chatGPTChatWithStructuredOutput "gpt-4o-2024-08-06" sampleMessages sampleConfig
        (fun _ => ⟨⟨⟨none, some ""⟩⟩ :: []⟩) = .error .noContent ∧
      isEmptyResponseError .noResponse = true ∧
      isEmptyResponseError .noContent = true ∧
      geminiChatWithStructuredOutput "gemini-2.0-flash-exp" sampleMessages sampleConfig
        (fun _ => ⟨⟨"", none⟩⟩) = .error (.geminiParseFailure "") ∧
      isEmptyResponseError (.geminiParseFailure "") = false) :=
  ⟨rfl, c7_empty_payload_surfacing "gpt-4o-2024-08-06" "gemini-2.0-flash-exp"
    sampleMessages sampleConfig .string [] rfl⟩

/-- Two different conversations that GeminiClient flattens to the same
request. -/
def messagesA : List Message := [⟨.user, "a"⟩, ⟨.assistant, "b"⟩]

/-- A one-message conversation whose single content embeds the flattened
form of `messagesA`. -/
def messagesB : List Message := [⟨.user, "a\n\nASSISTANT: b"⟩]

/-- C8, counterexample.  GeminiClient does not carry the message sequence
to the provider: it flattens the conversation into one prompt string, and
the flattening is not injective — two different role-tagged message lists
produce the identical request payload, so the request cannot carry the same
messages with the same roles and contents verbatim. -/
theorem c8_counterexample :
    buildGeminiRequest "gemini-2.0-flash-exp" messagesA sampleConfig
      = buildGeminiRequest "gemini-2.0-flash-exp" messagesB sampleConfig ∧
    messagesA ≠ messagesB :=
  ⟨rfl, by decide⟩

/-- C8 (amended): the ChatGPT adapter carries the message list verbatim to
the provider call — same messages, same roles and contents, same order —
while the Gemini adapter carries the conversation only as the single
flattened prompt string joining `ROLE: content` pieces (roles uppercased)
with blank lines, preserving conversation order only inside that
concatenation. -/
theorem c8_message_order (model : String) (messages : List Message)
    (config : StructuredOutputConfig) :
    (buildOpenAIRequest model messages config).messages = messages ∧
    (∀ req, buildGeminiRequest model messages config = .ok req →
      req.prompt = String.intercalate "\n\n"
        (messages.map (fun m => roleUpper m.role ++ ": " ++ m.content))) := by
  constructor
  · show messages.map (fun m => ⟨m.role, m.content⟩) = messages
    induction messages with
    | nil => rfl
    | cons hd tl ih => exact congrArg (List.cons _) ih
  · intro req hreq
    unfold buildGeminiRequest at hreq
    cases ht : jsonSchemaToGeminiSchema config.schema with
    | error e => rw [ht] at hreq; exact Except.noConfusion hreq
    | ok gs =>
        rw [ht] at hreq
        injection hreq with h2
        rw [← h2]
        rfl

/-- C8, witness: the amended theorem evaluated on the concrete two-message
conversation. -/
theorem c8_message_order_witness :
    (buildOpenAIRequest "gpt-4o-2024-08-06" messagesA sampleConfig).messages = messagesA ∧
    (⟨"gemini-2.0-flash-exp", "application/json", GeminiSchema.string,
        "USER: a\n\nASSISTANT: b"⟩ : GeminiRequest).prompt
      = String.intercalate "\n\n"
          (messagesA.map (fun m => roleUpper m.role ++ ": " ++ m.content)) :=
  ⟨(c8_message_order "gpt-4o-2024-08-06" messagesA sampleConfig).1,
    (c8_message_order "gemini-2.0-flash-exp" messagesA sampleConfig).2
      ⟨"gemini-2.0-flash-exp", "application/json", GeminiSchema.string,
        "USER: a\n\nASSISTANT: b"⟩ rfl⟩

/-- The spec's end-to-end canonical schema:
object (name : string, age : integer), required (name, age). -/
def bobSchema : SchemaNode :=
  .objectNode [("name", .stringNode), ("age", .numberNode true)] (some ["name", "age"])

/-- The backend text of the spec's end-to-end example. -/
def bobJson : String := "\x7b\"name\":\"Bob\",\"age\":42\x7d"

/-- The decoded value of the spec's end-to-end example. -/
def bobValue : Json := .obj [("name", .str "Bob"), ("age", .num 42 0)]

/-- C9 (confirmed): whenever the backend content decodes as JSON, each
adapter's call succeeds with the envelope carrying exactly the decoded
value as `data` and the full backend payload as `rawResponse`. -/
theorem c9_success_envelope (modelO modelG : String) (messages : List Message)
    (config : StructuredOutputConfig) (gs : GeminiSchema) (content text : String)
    (rest : List OpenAIChoice) (blockReason : Option String) (v w : Json)
    (hc : jsonParse content = some v) (ht : jsonParse text = some w)
    (hschema : jsonSchemaToGeminiSchema config.schema = .ok gs) :
    chatGPTChatWithStructuredOutput modelO messages config
        (fun _ => ⟨⟨⟨none, some content⟩⟩ :: rest⟩)
      = .ok ⟨v, ⟨⟨⟨none, some content⟩⟩ :: rest⟩⟩ ∧
    geminiChatWithStructuredOutput modelG messages config
        (fun _ => ⟨⟨text, blockReason⟩⟩)
      = .ok ⟨w, ⟨⟨text, blockReason⟩⟩⟩ := by
  have hcne : content ≠ "" := by
    intro h0
    rw [h0] at hc
    exact Option.noConfusion (show (none : Option Json) = some v from hc)
  constructor
  · simp [chatGPTChatWithStructuredOutput, processCompletion, truthyStr,
      bne_iff_ne, hcne, hc]
  · simp [geminiChatWithStructuredOutput, buildGeminiRequest, hschema,
      processGeminiResult, ht]

/-- C9, witness: the end-to-end example — backend text
(name Bob, age 42) as a JSON document — yields the envelope with exactly
that decoded object for both adapters. -/
theorem c9_success_witness :
    jsonParse bobJson = some bobValue ∧
    jsonSchemaToGeminiSchema bobSchema
      = .ok (.object [("name", .string), ("age", .number)] ["name", "age"]) ∧
    (chatGPTChatWithStructuredOutput "gpt-4o-2024-08-06" sampleMessages
        ⟨bobSchema, "cv_extraction", none⟩
        (fun _ => ⟨⟨⟨none, some bobJson⟩⟩ :: []⟩)
      = .ok ⟨bobValue, ⟨⟨⟨none, some bobJson⟩⟩ :: []⟩⟩ ∧
      geminiChatWithStructuredOutput "gemini-2.0-flash-exp" sampleMessages
        ⟨bobSchema, "cv_extraction", none⟩
        (fun _ => ⟨⟨bobJson, none⟩⟩)
      = .ok ⟨bobValue, ⟨⟨bobJson, none⟩⟩⟩) :=
  ⟨rfl, rfl,
    c9_success_envelope "gpt-4o-2024-08-06" "gemini-2.0-flash-exp" sampleMessages
      ⟨bobSchema, "cv_extraction", none⟩
      (.object [("name", .string), ("age", .number)] ["name", "age"])
      bobJson bobJson [] none bobValue bobValue rfl rfl rfl⟩

/-- C10 (confirmed): the outbound request each adapter builds is
independent of `config.schemaDescription` — two configurations differing
only there build identical requests — and the Gemini request is also
independent of `config.schemaName`.  Neither builder reads those fields:
ChatGPTClient reads only `schemaName` and `schema`, GeminiClient only
`schema`. -/
theorem c10_request_config_independence (modelO modelG : String)
    (messages : List Message) (schema : SchemaNode) (name1 name2 : String)
    (d1 d2 : Option String) :
    buildOpenAIRequest modelO messages ⟨schema, name1, d1⟩
      = buildOpenAIRequest modelO messages ⟨schema, name1, d2⟩ ∧
    buildGeminiRequest modelG messages ⟨schema, name1, d1⟩
      = buildGeminiRequest modelG messages ⟨schema, name2, d2⟩ :=
  ⟨rfl, rfl⟩
